import Mathlib

/-!
Verification of the `pkg/keyrotation` wrapper of the key-rotation repository.

The Go package under verification is a thin wrapper: every operation builds a
command line for an external `keyrotation-binary`, runs it, and parses its
stdout.  We embed the wrapper faithfully, parameterised by an abstract
executor (the subprocess boundary), and separately model the external binary
from the specification (the binary itself is not part of this repository).

Go strings are modelled as lists of characters, Go `time.Time` values (always
UTC in this package) as whole seconds since the Unix epoch, and Go `int` as
`Int`.  The proleptic-Gregorian civil-date computations mirror what
`time.Time.Format` performs for the layouts `"20060102"` and `"2006-01-02"`;
years outside `0 ..= 9999` are outside the modelled range of the fixed-width
four-digit year field.
-/

namespace keyrotation

/-- Go strings, modelled as their character sequences. -/
abbrev GoStr := List Char

/-- Coerce a Lean string literal into the `GoStr` model. -/
def str (s : String) : GoStr := s.data

/-- Model of Go `strings.TrimSpace` acting on the left end. -/
def trimLeft (l : GoStr) : GoStr := l.dropWhile Char.isWhitespace

/-- Model of Go `strings.TrimSpace` acting on the right end. -/
def trimRight (l : GoStr) : GoStr := (l.reverse.dropWhile Char.isWhitespace).reverse

/-- Model of Go `strings.TrimSpace`: strip whitespace from both ends. -/
def trimSpace (l : GoStr) : GoStr := trimLeft (trimRight l)

/-- Remove every dash from a string (date-string normalisation,
`"2024-01-15"` becomes `"20240115"`). -/
def stripDashes (l : GoStr) : GoStr := l.filter (fun c => !(c == '-'))

/-- The decimal digit character for `n % 10`. -/
def digitChar (n : Nat) : Char := Char.ofNat (48 + n % 10)

/-- A UTC instant: whole seconds since the Unix epoch `1970-01-01T00:00:00Z`. -/
abbrev UTCTime := Int

/-- The UTC calendar day an instant falls on, as days since the epoch
(floor division, so pre-1970 instants are handled correctly). -/
def utcDay (t : UTCTime) : Int := t / 86400

/-- Proleptic-Gregorian civil date `(year, month, day)` of a day count since
`1970-01-01` (the standard era-based algorithm, as used by Go's
`time.Time.Date`). -/
def civilFromDays (z : Int) : Int × Nat × Nat :=
  let zs : Int := z + 719468
  let era : Int := zs / 146097
  let doe : Nat := (zs % 146097).toNat
  let yoe : Nat := (doe - doe / 1460 + doe / 36524 - doe / 146096) / 365
  let doy : Nat := doe - (365 * yoe + yoe / 4 - yoe / 100)
  let mp : Nat := (5 * doy + 2) / 153
  let d : Nat := doy - (153 * mp + 2) / 5 + 1
  let m : Nat := if mp < 10 then mp + 3 else mp - 9
  let y : Int := (yoe : Int) + era * 400 + (if m ≤ 2 then 1 else 0)
  (y, m, d)

/-- Day count since `1970-01-01` of a proleptic-Gregorian civil date
(inverse of `civilFromDays` on valid dates). -/
def daysFromCivil (y : Int) (m d : Nat) : Int :=
  let ya : Int := y - (if m ≤ 2 then 1 else 0)
  let era : Int := ya / 400
  let yoe : Nat := (ya % 400).toNat
  let mp : Nat := (m + 9) % 12
  let doy : Nat := (153 * mp + 2) / 5 + d - 1
  let doe : Nat := yoe * 365 + yoe / 4 - yoe / 100 + doy
  era * 146097 + (doe : Int) - 719468

/-- Build the UTC instant for a civil date and time of day, mirroring Go's
`time.Date(y, m, d, hh, mi, ss, 0, time.UTC)`. -/
def mkUTC (y : Int) (mo d hh mi ss : Nat) : UTCTime :=
  daysFromCivil y mo d * 86400 + hh * 3600 + mi * 60 + ss

/-- Model of Go `utcDateTime.Format("20060102")` (keyrotation.go line 115):
the 8-digit `YYYYMMDD` rendering of the instant's UTC calendar date. -/
def formatYYYYMMDD (t : UTCTime) : GoStr :=
  match civilFromDays (utcDay t) with
  | (y, m, d) =>
    let yn : Nat := y.toNat
    [digitChar (yn / 1000), digitChar (yn / 100), digitChar (yn / 10), digitChar yn,
     digitChar (m / 10), digitChar m, digitChar (d / 10), digitChar d]

/-- Model of Go `utcDateTime.Format("2006-01-02")` (keyrotation.go lines 47
and 62): the dashed `YYYY-MM-DD` rendering of the instant's UTC calendar
date. -/
def formatISO (t : UTCTime) : GoStr :=
  match civilFromDays (utcDay t) with
  | (y, m, d) =>
    let yn : Nat := y.toNat
    [digitChar (yn / 1000), digitChar (yn / 100), digitChar (yn / 10), digitChar yn, '-',
     digitChar (m / 10), digitChar m, '-', digitChar (d / 10), digitChar d]

/-- A command line for the external `keyrotation-binary`, as built by
`exec.Command` in the wrapper: the binary path, the subcommand, and its
arguments.  The tolerance argument is carried as the integer it transports
(the wrapper serialises it with `strconv.Itoa` and the binary parses it
back; the round trip is the identity). -/
inductive Cmd where
  | encrypt (binaryPath apiKey : GoStr)
  | encryptDate (binaryPath apiKey dateStr : GoStr)
  | validate (binaryPath apiKey encryptedKey : GoStr)
  | validateDate (binaryPath apiKey encryptedKey : GoStr) (dateStr : GoStr)
  | validateTolerance (binaryPath apiKey encryptedKey : GoStr) (toleranceMinutes : Int)
deriving DecidableEq

/-- The date-string argument of a command, when it has one. -/
def Cmd.dateArg : Cmd → Option GoStr
  | .encryptDate _ _ d => some d
  | .validateDate _ _ _ d => some d
  | _ => none

/-- An executor for the subprocess boundary: running a command either fails
(`cmd.Run` returns an error) or succeeds with the captured stdout. -/
abbrev Exec := Cmd → Except GoStr GoStr

/-- The wrapper's state (keyrotation.go lines 13-15): only the path of the
external binary. -/
structure KeyRotationHelper where
  binaryPath : GoStr
deriving DecidableEq

/-- Constructor `New` (keyrotation.go lines 18-22). -/
def New : KeyRotationHelper := { binaryPath := str "./keyrotation-binary" }

/-- Constructor `NewWithBinaryPath` (keyrotation.go lines 25-29). -/
def NewWithBinaryPath (binaryPath : GoStr) : KeyRotationHelper :=
  { binaryPath := binaryPath }

/-- The command built by `EncryptApiKey` (keyrotation.go line 33). -/
def EncryptApiKey_cmd (k : KeyRotationHelper) (apiKey : GoStr) : Cmd :=
  .encrypt k.binaryPath apiKey

/-- Method `EncryptApiKey` (keyrotation.go lines 32-43).  All methods are
embedded with explicit state threading: they return their result together
with the receiver state after the call (the Go methods take a pointer
receiver and never assign to it). -/
def EncryptApiKey (exec : Exec) (k : KeyRotationHelper) (apiKey : GoStr) :
    Except GoStr GoStr × KeyRotationHelper :=
  match exec (EncryptApiKey_cmd k apiKey) with
  | .error e => (.error (str "failed to encrypt API key: " ++ e), k)
  | .ok out => (.ok (trimSpace out), k)

/-- The command built by `EncryptApiKeyWithDate` (keyrotation.go lines
47-48): note the date is serialised with layout `"2006-01-02"`. -/
def EncryptApiKeyWithDate_cmd (k : KeyRotationHelper) (apiKey : GoStr) (utcDateTime : UTCTime) :
    Cmd :=
  .encryptDate k.binaryPath apiKey (formatISO utcDateTime)

/-- Method `EncryptApiKeyWithDate` (keyrotation.go lines 46-58). -/
def EncryptApiKeyWithDate (exec : Exec) (k : KeyRotationHelper) (apiKey : GoStr)
    (utcDateTime : UTCTime) : Except GoStr GoStr × KeyRotationHelper :=
  match exec (EncryptApiKeyWithDate_cmd k apiKey utcDateTime) with
  | .error e => (.error (str "failed to encrypt API key with date: " ++ e), k)
  | .ok out => (.ok (trimSpace out), k)

/-- The command built by `ValidateApiKey` (keyrotation.go lines 62-63): the
date is serialised with layout `"2006-01-02"`. -/
def ValidateApiKey_cmd (k : KeyRotationHelper) (apiKey encryptedKey : GoStr)
    (utcDateTime : UTCTime) : Cmd :=
  .validateDate k.binaryPath apiKey encryptedKey (formatISO utcDateTime)

/-- Method `ValidateApiKey` (keyrotation.go lines 61-74): runs
`validate-date` and returns whether the trimmed stdout equals `"true"`. -/
def ValidateApiKey (exec : Exec) (k : KeyRotationHelper) (apiKey encryptedKey : GoStr)
    (utcDateTime : UTCTime) : Except GoStr Bool × KeyRotationHelper :=
  match exec (ValidateApiKey_cmd k apiKey encryptedKey utcDateTime) with
  | .error e => (.error (str "failed to validate API key: " ++ e), k)
  | .ok out => (.ok (trimSpace out == str "true"), k)

/-- Method `ValidateApiKeyWithTolerance` (keyrotation.go lines 77-81): the
tolerance argument is ignored and the call falls back to `ValidateApiKey`,
exactly as the source comment documents. -/
def ValidateApiKeyWithTolerance (exec : Exec) (k : KeyRotationHelper)
    (apiKey encryptedKey : GoStr) (utcDateTime : UTCTime) (toleranceMinutes : Int) :
    Except GoStr Bool × KeyRotationHelper :=
  ValidateApiKey exec k apiKey encryptedKey utcDateTime

/-- The command built by `ValidateApiKeyToday` (keyrotation.go line 85). -/
def ValidateApiKeyToday_cmd (k : KeyRotationHelper) (apiKey encryptedKey : GoStr) : Cmd :=
  .validate k.binaryPath apiKey encryptedKey

/-- Method `ValidateApiKeyToday` (keyrotation.go lines 84-96). -/
def ValidateApiKeyToday (exec : Exec) (k : KeyRotationHelper) (apiKey encryptedKey : GoStr) :
    Except GoStr Bool × KeyRotationHelper :=
  match exec (ValidateApiKeyToday_cmd k apiKey encryptedKey) with
  | .error e => (.error (str "failed to validate API key for today: " ++ e), k)
  | .ok out => (.ok (trimSpace out == str "true"), k)

/-- The command built by `ValidateApiKeyTodayWithTolerance` (keyrotation.go
line 100), the tolerance travelling as `strconv.Itoa(toleranceMinutes)`. -/
def ValidateApiKeyTodayWithTolerance_cmd (k : KeyRotationHelper) (apiKey encryptedKey : GoStr)
    (toleranceMinutes : Int) : Cmd :=
  .validateTolerance k.binaryPath apiKey encryptedKey toleranceMinutes

/-- Method `ValidateApiKeyTodayWithTolerance` (keyrotation.go lines
99-111). -/
def ValidateApiKeyTodayWithTolerance (exec : Exec) (k : KeyRotationHelper)
    (apiKey encryptedKey : GoStr) (toleranceMinutes : Int) :
    Except GoStr Bool × KeyRotationHelper :=
  match exec (ValidateApiKeyTodayWithTolerance_cmd k apiKey encryptedKey toleranceMinutes) with
  | .error e => (.error (str "failed to validate API key with tolerance: " ++ e), k)
  | .ok out => (.ok (trimSpace out == str "true"), k)

/-- Method `GetDateString` (keyrotation.go lines 113-116): formats the
instant with layout `"20060102"`; it invokes no subprocess. -/
def GetDateString (k : KeyRotationHelper) (utcDateTime : UTCTime) :
    GoStr × KeyRotationHelper :=
  (formatYYYYMMDD utcDateTime, k)

/-- Modelled from the spec: the keyed one-way hash of the private binary
(spec section 4.1), missing from this repository.  The spec prescribes a
digest over the bytes `apiKey || "|" || DateStamp` and asserts that distinct
dates yield distinct digests; we model the hash by the (injective) tagged
concatenation it digests, which preserves exactly the properties the spec
states — determinism, dependence only on `(apiKey, DateStamp)`, and
distinctness of digests for distinct inputs.  Real digests are hex strings,
so the model output never starts or ends with whitespace. -/
def KeyedHash (apiKey dateStamp : GoStr) : GoStr :=
  'H' :: '(' :: (apiKey ++ '|' :: dateStamp) ++ [')']

/-- Modelled from the spec: the private `keyrotation-binary` (a separate
repository, not under `src/`), reconstructed from spec sections 4.1, 6 and 7.
`now` is the binary's current UTC instant for the "today" subcommands.
`encrypt`/`encrypt-date` reject an empty apiKey with `InvalidInput` and
otherwise print `KeyedHash(apiKey, DateStamp)`; the `validate` family
rejects empty inputs or a negative tolerance with `InvalidInput` and
otherwise prints `"true"` or `"false"`; `validate-tolerance` accepts a
digest for any of the instants `now`, `now - tolerance`, `now + tolerance`
(spec section 4.1, validation algorithm).  Date arguments arrive in the
wrapper's dashed form and are normalised to the 8-digit DateStamp. -/
def specBinary (now : UTCTime) : Exec
  | .encrypt _ apiKey =>
      if apiKey = [] then .error (str "InvalidInput")
      else .ok (KeyedHash apiKey (formatYYYYMMDD now))
  | .encryptDate _ apiKey dateStr =>
      if apiKey = [] then .error (str "InvalidInput")
      else .ok (KeyedHash apiKey (stripDashes dateStr))
  | .validate _ apiKey encryptedKey =>
      if apiKey = [] ∨ encryptedKey = [] then .error (str "InvalidInput")
      else .ok (if encryptedKey = KeyedHash apiKey (formatYYYYMMDD now)
                then str "true" else str "false")
  | .validateDate _ apiKey encryptedKey dateStr =>
      if apiKey = [] ∨ encryptedKey = [] then .error (str "InvalidInput")
      else .ok (if encryptedKey = KeyedHash apiKey (stripDashes dateStr)
                then str "true" else str "false")
  | .validateTolerance _ apiKey encryptedKey tol =>
      if apiKey = [] ∨ encryptedKey = [] ∨ tol < 0 then .error (str "InvalidInput")
      else
        let cands : List UTCTime :=
          if 0 < tol then [now, now - 60 * tol, now + 60 * tol] else [now]
        .ok (if cands.any (fun c => encryptedKey == KeyedHash apiKey (formatYYYYMMDD c))
             then str "true" else str "false")

/-- Decidable equality of subprocess results, so that concrete runs of the
model can be checked by `decide`. -/
instance {ε α : Type} [DecidableEq ε] [DecidableEq α] : DecidableEq (Except ε α) := fun a b =>
  match a, b with
  | .error e1, .error e2 =>
      if h : e1 = e2 then .isTrue (by rw [h])
      else .isFalse (fun hc => h (by injection hc))
  | .error _, .ok _ => .isFalse (fun hc => Except.noConfusion hc)
  | .ok _, .error _ => .isFalse (fun hc => Except.noConfusion hc)
  | .ok a1, .ok a2 =>
      if h : a1 = a2 then .isTrue (by rw [h])
      else .isFalse (fun hc => h (by injection hc))

/-- Digit characters are never whitespace. -/
theorem digitChar_isWhitespace (n : Nat) : (digitChar n).isWhitespace = false := by
  have h : n % 10 < 10 := Nat.mod_lt _ (by decide)
  have hd : ∀ m : Fin 10, (Char.ofNat (48 + m.val)).isWhitespace = false := by decide
  exact hd ⟨n % 10, h⟩

/-- Digit characters are never a dash. -/
theorem digitChar_beq_dash (n : Nat) : (digitChar n == '-') = false := by
  have h : n % 10 < 10 := Nat.mod_lt _ (by decide)
  have hd : ∀ m : Fin 10, (Char.ofNat (48 + m.val) == '-') = false := by decide
  exact hd ⟨n % 10, h⟩

/-- Modelled digests carry no surrounding whitespace, so the wrapper's
`strings.TrimSpace` leaves them unchanged. -/
theorem trimSpace_keyedHash (k s : GoStr) : trimSpace (KeyedHash k s) = KeyedHash k s := by
  have h1 : Char.isWhitespace ')' = false := by decide
  have h2 : Char.isWhitespace 'H' = false := by decide
  simp [trimSpace, trimLeft, trimRight, KeyedHash, List.dropWhile_cons, h1, h2]

/-- Modelled digests are never the empty string. -/
theorem keyedHash_ne_nil (k s : GoStr) : KeyedHash k s ≠ [] := by
  simp [KeyedHash]

/-- For a fixed apiKey, digests agree exactly when the DateStamps do. -/
theorem keyedHash_inj (k s1 s2 : GoStr) : KeyedHash k s1 = KeyedHash k s2 ↔ s1 = s2 := by
  constructor
  · intro h
    simp only [KeyedHash, List.cons.injEq, true_and] at h
    have h2 := (List.append_left_inj _).1 h
    injection h2 with _ h3
    injection h3 with _ h4
    have h5 := List.append_cancel_left h4
    injection h5
  · intro h
    rw [h]

/-- The trimmed output `"true"` parses to `true`. -/
theorem parse_true : (trimSpace (str "true") == str "true") = true := by decide

/-- The trimmed output `"false"` parses to `false`. -/
theorem parse_false : (trimSpace (str "false") == str "true") = false := by decide

/-- The date string of a day depends only on the day. -/
theorem formatYYYYMMDD_day (t1 t2 : UTCTime) (h : utcDay t1 = utcDay t2) :
    formatYYYYMMDD t1 = formatYYYYMMDD t2 := by
  unfold formatYYYYMMDD
  rw [h]

/-- Removing the dashes from the dashed date rendering gives exactly the
8-digit DateStamp rendering. -/
theorem stripDashes_formatISO (t : UTCTime) : stripDashes (formatISO t) = formatYYYYMMDD t := by
  rcases hc : civilFromDays (utcDay t) with ⟨y, m, d⟩
  simp [stripDashes, formatISO, formatYYYYMMDD, hc, List.filter_cons, digitChar_beq_dash]

/-- Claim C1: round-trip — for every apiKey and every UTC instant `t`,
validating the digest produced by encrypting the apiKey at `t`, against the
same apiKey at the same instant `t` with `toleranceMinutes = 0`, returns
`true` (wrapper over the spec-modelled binary; the encryption succeeding
presupposes a non-empty apiKey). -/
theorem validateApiKey_roundtrip (u : UTCTime) (k : KeyRotationHelper)
    (apiKey digest : GoStr) (t : UTCTime) (hk : apiKey ≠ [])
    (henc : (EncryptApiKeyWithDate (specBinary u) k apiKey t).1 = .ok digest) :
    (ValidateApiKeyWithTolerance (specBinary u) k apiKey digest t 0).1 = .ok true := by
  simp [EncryptApiKeyWithDate, EncryptApiKeyWithDate_cmd, specBinary, hk,
    trimSpace_keyedHash] at henc
  subst henc
  simp [ValidateApiKeyWithTolerance, ValidateApiKey, ValidateApiKey_cmd, specBinary, hk,
    keyedHash_ne_nil, parse_true]

/-- Witness for C1 at a concrete apiKey and instant. -/
theorem validateApiKey_roundtrip_witness :
    (ValidateApiKeyWithTolerance (specBinary 0) New (str "k") (str "H(k|20240115)")
      (mkUTC 2024 1 15 12 30 45) 0).1 = .ok true :=
  validateApiKey_roundtrip 0 New (str "k") (str "H(k|20240115)")
    (mkUTC 2024 1 15 12 30 45) (by decide) (by decide)

/-- Claim C2 counterexample: the digest produced at
`2024-01-15T23:59:00Z` does NOT validate at `2024-01-16T00:01:00Z` with
`toleranceMinutes = 5` — `ValidateApiKeyWithTolerance` ignores the
tolerance, so the claimed bridging of midnight fails on the code. -/
theorem tolerance_midnight_counterexample :
    (EncryptApiKeyWithDate (specBinary 0) New (str "k") (mkUTC 2024 1 15 23 59 0)).1 =
      .ok (str "H(k|20240115)") ∧
    (ValidateApiKeyWithTolerance (specBinary 0) New (str "k") (str "H(k|20240115)")
      (mkUTC 2024 1 16 0 1 0) 5).1 = .ok false := by
  constructor
  · decide
  · decide

/-- Claim C2, amended: for every apiKey, the digest produced by encrypting
it at `2024-01-15T23:59:00Z` fails to validate at reference instant
`2024-01-16T00:01:00Z` both with `toleranceMinutes = 5` and with
`toleranceMinutes = 0`, because the tolerance argument is discarded and the
validation is exact-date. -/
theorem tolerance_midnight_fallback (u : UTCTime) (k : KeyRotationHelper)
    (apiKey digest : GoStr) (hk : apiKey ≠ [])
    (henc : (EncryptApiKeyWithDate (specBinary u) k apiKey (mkUTC 2024 1 15 23 59 0)).1 =
      .ok digest) :
    (ValidateApiKeyWithTolerance (specBinary u) k apiKey digest
      (mkUTC 2024 1 16 0 1 0) 5).1 = .ok false ∧
    (ValidateApiKeyWithTolerance (specBinary u) k apiKey digest
      (mkUTC 2024 1 16 0 1 0) 0).1 = .ok false := by
  simp [EncryptApiKeyWithDate, EncryptApiKeyWithDate_cmd, specBinary, hk,
    trimSpace_keyedHash] at henc
  subst henc
  have hstamp0 : stripDashes (formatISO (mkUTC 2024 1 15 23 59 0)) = str "20240115" := by
    decide
  have hstamp1 : stripDashes (formatISO (mkUTC 2024 1 16 0 1 0)) = str "20240116" := by
    decide
  have hne : KeyedHash apiKey (str "20240115") ≠ KeyedHash apiKey (str "20240116") := by
    intro h
    exact absurd ((keyedHash_inj apiKey (str "20240115") (str "20240116")).1 h) (by decide)
  constructor <;>
    simp [ValidateApiKeyWithTolerance, ValidateApiKey, ValidateApiKey_cmd, specBinary, hk,
      keyedHash_ne_nil, hstamp0, hstamp1, hne, parse_false]

/-- Witness for the amended C2 at a concrete apiKey. -/
theorem tolerance_midnight_fallback_witness :
    (ValidateApiKeyWithTolerance (specBinary 0) New (str "k") (str "H(k|20240115)")
      (mkUTC 2024 1 16 0 1 0) 5).1 = .ok false ∧
    (ValidateApiKeyWithTolerance (specBinary 0) New (str "k") (str "H(k|20240115)")
      (mkUTC 2024 1 16 0 1 0) 0).1 = .ok false :=
  tolerance_midnight_fallback 0 New (str "k") (str "H(k|20240115)") (by decide) (by decide)

/-- Claim C3: `ValidateApiKeyWithTolerance` returns exactly the same result
(value and error, and final state) as `ValidateApiKey` for every executor,
helper, apiKey, encryptedKey, instant and tolerance — the tolerance
argument is ignored. -/
theorem validateWithTolerance_eq_validate (exec : Exec) (k : KeyRotationHelper)
    (apiKey encryptedKey : GoStr) (t : UTCTime) (toleranceMinutes : Int) :
    ValidateApiKeyWithTolerance exec k apiKey encryptedKey t toleranceMinutes =
      ValidateApiKey exec k apiKey encryptedKey t := rfl

/-- Claim C4 counterexample: at `2024-01-15T12:30:45Z` the date string the
wrapper passes to the binary is `"2024-01-15"`, which is not
`GetDateString`'s `"20240115"`. -/
theorem dateArg_counterexample :
    (EncryptApiKeyWithDate_cmd New (str "k") (mkUTC 2024 1 15 12 30 45)).dateArg =
      some (str "2024-01-15") ∧
    (ValidateApiKey_cmd New (str "k") (str "e") (mkUTC 2024 1 15 12 30 45)).dateArg =
      some (str "2024-01-15") ∧
    (GetDateString New (mkUTC 2024 1 15 12 30 45)).1 = str "20240115" ∧
    str "2024-01-15" ≠ str "20240115" := by
  refine ⟨by decide, by decide, by decide, by decide⟩

/-- Claim C4, amended: the date string `EncryptApiKeyWithDate` and
`ValidateApiKey` derive from `t` and pass onward is the dashed
`YYYY-MM-DD` rendering (Go layout `"2006-01-02"`), which denotes the same
UTC calendar day as `GetDateString t` — removing its dashes yields exactly
`GetDateString t` — but is not the 8-digit `YYYYMMDD` string itself. -/
theorem dateArg_is_dashed_form (k : KeyRotationHelper) (apiKey encryptedKey : GoStr)
    (t : UTCTime) :
    (EncryptApiKeyWithDate_cmd k apiKey t).dateArg = some (formatISO t) ∧
    (ValidateApiKey_cmd k apiKey encryptedKey t).dateArg = some (formatISO t) ∧
    stripDashes (formatISO t) = (GetDateString k t).1 :=
  ⟨rfl, rfl, stripDashes_formatISO t⟩

/-- Claim C8: determinism of encryption — the digest returned by
`EncryptApiKeyWithDate` depends only on the apiKey and the instant (not on
the helper instance nor on when the binary runs), and repeated calls of
`EncryptApiKey` at the same current instant agree. -/
theorem encrypt_deterministic (u v : UTCTime) (k1 k2 : KeyRotationHelper)
    (apiKey : GoStr) (t : UTCTime) :
    (EncryptApiKeyWithDate (specBinary u) k1 apiKey t).1 =
      (EncryptApiKeyWithDate (specBinary v) k2 apiKey t).1 ∧
    (EncryptApiKey (specBinary u) k1 apiKey).1 = (EncryptApiKey (specBinary u) k2 apiKey).1 := by
  by_cases h : apiKey = [] <;> constructor <;>
    simp [EncryptApiKeyWithDate, EncryptApiKeyWithDate_cmd, EncryptApiKey, EncryptApiKey_cmd,
      specBinary, h]

/-- Claim C5: validation error semantics over the spec-modelled binary — a
digest mismatch yields `false` with no error, and validation fails with the
`InvalidInput` error exactly when the apiKey or the encryptedKey is empty
(for `ValidateApiKey`) or additionally when the tolerance is negative (for
`ValidateApiKeyTodayWithTolerance`). -/
theorem validate_error_semantics (u : UTCTime) (k : KeyRotationHelper)
    (apiKey encryptedKey : GoStr) (t : UTCTime) (tol : Int) :
    ((ValidateApiKey (specBinary u) k apiKey encryptedKey t).1 =
        .error (str "failed to validate API key: InvalidInput") ↔
      apiKey = [] ∨ encryptedKey = []) ∧
    ((ValidateApiKeyTodayWithTolerance (specBinary u) k apiKey encryptedKey tol).1 =
        .error (str "failed to validate API key with tolerance: InvalidInput") ↔
      apiKey = [] ∨ encryptedKey = [] ∨ tol < 0) ∧
    (apiKey ≠ [] → encryptedKey ≠ [] →
      encryptedKey ≠ KeyedHash apiKey (stripDashes (formatISO t)) →
      (ValidateApiKey (specBinary u) k apiKey encryptedKey t).1 = .ok false) ∧
    (apiKey ≠ [] → encryptedKey ≠ [] → 0 ≤ tol →
      encryptedKey ≠ KeyedHash apiKey (formatYYYYMMDD u) →
      encryptedKey ≠ KeyedHash apiKey (formatYYYYMMDD (u - 60 * tol)) →
      encryptedKey ≠ KeyedHash apiKey (formatYYYYMMDD (u + 60 * tol)) →
      (ValidateApiKeyTodayWithTolerance (specBinary u) k apiKey encryptedKey tol).1 =
        .ok false) := by
  have hcat1 : str "failed to validate API key: " ++ str "InvalidInput" =
      str "failed to validate API key: InvalidInput" := by decide
  have hcat2 : str "failed to validate API key with tolerance: " ++ str "InvalidInput" =
      str "failed to validate API key with tolerance: InvalidInput" := by decide
  refine ⟨?_, ?_, ?_, ?_⟩
  · constructor
    · intro h
      by_cases h1 : apiKey = [] ∨ encryptedKey = []
      · exact h1
      · exfalso
        push_neg at h1
        simp [ValidateApiKey, ValidateApiKey_cmd, specBinary, h1.1, h1.2] at h
    · intro h1
      simp only [ValidateApiKey, ValidateApiKey_cmd, specBinary]
      rw [if_pos h1]
      simp [hcat1]
  · constructor
    · intro h
      by_cases h1 : apiKey = [] ∨ encryptedKey = [] ∨ tol < 0
      · exact h1
      · exfalso
        push_neg at h1
        have h1c : ¬ tol < 0 := not_lt.2 h1.2.2
        by_cases htol : 0 < tol <;>
          simp [ValidateApiKeyTodayWithTolerance, ValidateApiKeyTodayWithTolerance_cmd,
            specBinary, h1.1, h1.2.1, h1c, htol] at h
    · intro h1
      simp only [ValidateApiKeyTodayWithTolerance, ValidateApiKeyTodayWithTolerance_cmd,
        specBinary]
      rw [if_pos h1]
      simp [hcat2]
  · intro h1 h2 h3
    simp [ValidateApiKey, ValidateApiKey_cmd, specBinary, h1, h2, h3, parse_false]
  · intro h1 h2 h3 h4 h5 h6
    have h3c : ¬ tol < 0 := not_lt.2 h3
    have hb4 : (encryptedKey == KeyedHash apiKey (formatYYYYMMDD u)) = false :=
      beq_eq_false_iff_ne.2 h4
    have hb5 : (encryptedKey == KeyedHash apiKey (formatYYYYMMDD (u - 60 * tol))) = false :=
      beq_eq_false_iff_ne.2 h5
    have hb6 : (encryptedKey == KeyedHash apiKey (formatYYYYMMDD (u + 60 * tol))) = false :=
      beq_eq_false_iff_ne.2 h6
    by_cases htol : 0 < tol <;>
      simp [ValidateApiKeyTodayWithTolerance, ValidateApiKeyTodayWithTolerance_cmd,
        specBinary, h1, h2, h3c, htol, hb4, hb5, hb6, parse_false]

/-- Witness for C5: a concrete mismatching digest validates to `false`
without an error. -/
theorem validate_error_semantics_witness :
    (ValidateApiKey (specBinary 0) New (str "k") (str "x") 0).1 = .ok false :=
  (validate_error_semantics 0 New (str "k") (str "x") 0 3).2.2.1
    (by decide) (by decide) (by decide)

/-- Claim C6: encrypting the empty apiKey fails with `InvalidInput` at every
instant, through `EncryptApiKey` and `EncryptApiKeyWithDate` alike, and a
non-empty apiKey always encrypts successfully (spec-modelled binary). -/
theorem encryptApiKey_invalid_input (u : UTCTime) (k : KeyRotationHelper) (apiKey : GoStr)
    (t : UTCTime) (hk : apiKey ≠ []) :
    (EncryptApiKey (specBinary u) k []).1 =
      .error (str "failed to encrypt API key: InvalidInput") ∧
    (EncryptApiKeyWithDate (specBinary u) k [] t).1 =
      .error (str "failed to encrypt API key with date: InvalidInput") ∧
    (EncryptApiKey (specBinary u) k apiKey).1 = .ok (KeyedHash apiKey (formatYYYYMMDD u)) ∧
    (EncryptApiKeyWithDate (specBinary u) k apiKey t).1 =
      .ok (KeyedHash apiKey (stripDashes (formatISO t))) := by
  have hcat3 : str "failed to encrypt API key: " ++ str "InvalidInput" =
      str "failed to encrypt API key: InvalidInput" := by decide
  have hcat4 : str "failed to encrypt API key with date: " ++ str "InvalidInput" =
      str "failed to encrypt API key with date: InvalidInput" := by decide
  refine ⟨?_, ?_, ?_, ?_⟩ <;>
    simp [EncryptApiKey, EncryptApiKey_cmd, EncryptApiKeyWithDate, EncryptApiKeyWithDate_cmd,
      specBinary, hk, trimSpace_keyedHash, hcat3, hcat4]

/-- Witness for C6 at a concrete apiKey and instant. -/
theorem encryptApiKey_invalid_input_witness :
    str "k" ≠ [] ∧
    ((EncryptApiKey (specBinary 0) New []).1 =
        .error (str "failed to encrypt API key: InvalidInput") ∧
      (EncryptApiKeyWithDate (specBinary 0) New [] 0).1 =
        .error (str "failed to encrypt API key with date: InvalidInput") ∧
      (EncryptApiKey (specBinary 0) New (str "k")).1 =
        .ok (KeyedHash (str "k") (formatYYYYMMDD 0)) ∧
      (EncryptApiKeyWithDate (specBinary 0) New (str "k") 0).1 =
        .ok (KeyedHash (str "k") (stripDashes (formatISO 0)))) :=
  ⟨by decide, encryptApiKey_invalid_input 0 New (str "k") 0 (by decide)⟩

/-- Claim C7: `GetDateString` renders the instant's UTC calendar date as the
8-character `YYYYMMDD` digit string (the year bounds delimit the 4-digit
year range of the fixed-width layout); any two instants on the same UTC
calendar day yield equal results, and `2024-01-15T12:30:45Z` (as well as
the first and last second of that day) yields `"20240115"`. -/
theorem getDateString_spec (k : KeyRotationHelper) (t1 t2 : UTCTime)
    (hday : utcDay t1 = utcDay t2)
    (hy0 : 0 ≤ (civilFromDays (utcDay t1)).1)
    (hy9 : (civilFromDays (utcDay t1)).1 ≤ 9999) :
    (GetDateString k t1).1 = (GetDateString k t2).1 ∧
    ((GetDateString k t1).1).length = 8 ∧
    (GetDateString k (mkUTC 2024 1 15 12 30 45)).1 = str "20240115" ∧
    (GetDateString k (mkUTC 2024 1 15 0 0 1)).1 = str "20240115" ∧
    (GetDateString k (mkUTC 2024 1 15 23 59 59)).1 = str "20240115" := by
  refine ⟨?_, ?_, ?_, ?_, ?_⟩
  · simp only [GetDateString]
    exact formatYYYYMMDD_day t1 t2 hday
  · rcases hc : civilFromDays (utcDay t1) with ⟨y, m, d⟩
    simp [GetDateString, formatYYYYMMDD, hc]
  · simp only [GetDateString]
    decide
  · simp only [GetDateString]
    decide
  · simp only [GetDateString]
    decide

/-- Witness for C7: the first and last second of 2024-01-15 UTC. -/
theorem getDateString_spec_witness :
    utcDay (mkUTC 2024 1 15 0 0 1) = utcDay (mkUTC 2024 1 15 23 59 59) ∧
    0 ≤ (civilFromDays (utcDay (mkUTC 2024 1 15 0 0 1))).1 ∧
    (civilFromDays (utcDay (mkUTC 2024 1 15 0 0 1))).1 ≤ 9999 ∧
    ((GetDateString New (mkUTC 2024 1 15 0 0 1)).1 =
        (GetDateString New (mkUTC 2024 1 15 23 59 59)).1 ∧
      ((GetDateString New (mkUTC 2024 1 15 0 0 1)).1).length = 8 ∧
      (GetDateString New (mkUTC 2024 1 15 12 30 45)).1 = str "20240115" ∧
      (GetDateString New (mkUTC 2024 1 15 0 0 1)).1 = str "20240115" ∧
      (GetDateString New (mkUTC 2024 1 15 23 59 59)).1 = str "20240115") :=
  ⟨by decide, by decide, by decide,
    getDateString_spec New _ _ (by decide) (by decide) (by decide)⟩

/-- Claim C9: statelessness — every wrapper operation leaves the helper
state (its `binaryPath` field) unchanged, and its result depends only on
its explicit arguments and the helper's `binaryPath`. -/
theorem helper_state_unchanged (exec : Exec) (k k2 : KeyRotationHelper)
    (apiKey encryptedKey : GoStr) (t : UTCTime) (tol : Int)
    (hpath : k2.binaryPath = k.binaryPath) :
    (EncryptApiKey exec k apiKey).2 = k ∧
    (EncryptApiKeyWithDate exec k apiKey t).2 = k ∧
    (ValidateApiKey exec k apiKey encryptedKey t).2 = k ∧
    (ValidateApiKeyWithTolerance exec k apiKey encryptedKey t tol).2 = k ∧
    (ValidateApiKeyToday exec k apiKey encryptedKey).2 = k ∧
    (ValidateApiKeyTodayWithTolerance exec k apiKey encryptedKey tol).2 = k ∧
    (GetDateString k t).2 = k ∧
    (EncryptApiKey exec k2 apiKey).1 = (EncryptApiKey exec k apiKey).1 ∧
    (EncryptApiKeyWithDate exec k2 apiKey t).1 = (EncryptApiKeyWithDate exec k apiKey t).1 ∧
    (ValidateApiKey exec k2 apiKey encryptedKey t).1 =
      (ValidateApiKey exec k apiKey encryptedKey t).1 ∧
    (ValidateApiKeyWithTolerance exec k2 apiKey encryptedKey t tol).1 =
      (ValidateApiKeyWithTolerance exec k apiKey encryptedKey t tol).1 ∧
    (ValidateApiKeyToday exec k2 apiKey encryptedKey).1 =
      (ValidateApiKeyToday exec k apiKey encryptedKey).1 ∧
    (ValidateApiKeyTodayWithTolerance exec k2 apiKey encryptedKey tol).1 =
      (ValidateApiKeyTodayWithTolerance exec k apiKey encryptedKey tol).1 ∧
    (GetDateString k2 t).1 = (GetDateString k t).1 := by
  have hk2 : k2 = k := by
    cases k2
    cases k
    simpa using hpath
  subst hk2
  refine ⟨?_, ?_, ?_, ?_, ?_, ?_, rfl, rfl, rfl, rfl, rfl, rfl, rfl, rfl⟩
  · cases hx : exec (EncryptApiKey_cmd k2 apiKey) <;> simp [EncryptApiKey, hx]
  · cases hx : exec (EncryptApiKeyWithDate_cmd k2 apiKey t) <;>
      simp [EncryptApiKeyWithDate, hx]
  · cases hx : exec (ValidateApiKey_cmd k2 apiKey encryptedKey t) <;>
      simp [ValidateApiKey, hx]
  · cases hx : exec (ValidateApiKey_cmd k2 apiKey encryptedKey t) <;>
      simp [ValidateApiKeyWithTolerance, ValidateApiKey, hx]
  · cases hx : exec (ValidateApiKeyToday_cmd k2 apiKey encryptedKey) <;>
      simp [ValidateApiKeyToday, hx]
  · cases hx : exec (ValidateApiKeyTodayWithTolerance_cmd k2 apiKey encryptedKey tol) <;>
      simp [ValidateApiKeyTodayWithTolerance, hx]

/-- Witness for C9 at a concrete executor, helper and arguments. -/
theorem helper_state_unchanged_witness :
    New.binaryPath = New.binaryPath ∧
    ((EncryptApiKey (specBinary 0) New (str "k")).2 = New ∧
      (EncryptApiKeyWithDate (specBinary 0) New (str "k") 0).2 = New ∧
      (ValidateApiKey (specBinary 0) New (str "k") (str "x") 0).2 = New ∧
      (ValidateApiKeyWithTolerance (specBinary 0) New (str "k") (str "x") 0 0).2 = New ∧
      (ValidateApiKeyToday (specBinary 0) New (str "k") (str "x")).2 = New ∧
      (ValidateApiKeyTodayWithTolerance (specBinary 0) New (str "k") (str "x") 0).2 = New ∧
      (GetDateString New 0).2 = New ∧
      (EncryptApiKey (specBinary 0) New (str "k")).1 =
        (EncryptApiKey (specBinary 0) New (str "k")).1 ∧
      (EncryptApiKeyWithDate (specBinary 0) New (str "k") 0).1 =
        (EncryptApiKeyWithDate (specBinary 0) New (str "k") 0).1 ∧
      (ValidateApiKey (specBinary 0) New (str "k") (str "x") 0).1 =
        (ValidateApiKey (specBinary 0) New (str "k") (str "x") 0).1 ∧
      (ValidateApiKeyWithTolerance (specBinary 0) New (str "k") (str "x") 0 0).1 =
        (ValidateApiKeyWithTolerance (specBinary 0) New (str "k") (str "x") 0 0).1 ∧
      (ValidateApiKeyToday (specBinary 0) New (str "k") (str "x")).1 =
        (ValidateApiKeyToday (specBinary 0) New (str "k") (str "x")).1 ∧
      (ValidateApiKeyTodayWithTolerance (specBinary 0) New (str "k") (str "x") 0).1 =
        (ValidateApiKeyTodayWithTolerance (specBinary 0) New (str "k") (str "x") 0).1 ∧
      (GetDateString New 0).1 = (GetDateString New 0).1) :=
  ⟨rfl, helper_state_unchanged (specBinary 0) New New (str "k") (str "x") 0 0 rfl⟩

/-- Claim C10: each validate operation returns `true` exactly when the
subprocess stdout, trimmed of surrounding whitespace, equals `"true"`;
any other successful output (including `"TRUE"` or garbage) yields `false`
with no error. -/
theorem validate_parses_stdout (exec : Exec) (k : KeyRotationHelper)
    (apiKey encryptedKey : GoStr) (t : UTCTime) (tol : Int) (out1 out2 out3 : GoStr)
    (h1 : exec (ValidateApiKey_cmd k apiKey encryptedKey t) = .ok out1)
    (h2 : exec (ValidateApiKeyToday_cmd k apiKey encryptedKey) = .ok out2)
    (h3 : exec (ValidateApiKeyTodayWithTolerance_cmd k apiKey encryptedKey tol) = .ok out3) :
    (ValidateApiKey exec k apiKey encryptedKey t).1 = .ok (trimSpace out1 == str "true") ∧
    (ValidateApiKeyToday exec k apiKey encryptedKey).1 =
      .ok (trimSpace out2 == str "true") ∧
    (ValidateApiKeyTodayWithTolerance exec k apiKey encryptedKey tol).1 =
      .ok (trimSpace out3 == str "true") ∧
    (ValidateApiKey (fun _ => .ok (str "TRUE")) k apiKey encryptedKey t).1 = .ok false ∧
    (ValidateApiKey (fun _ => .ok (str "garbage")) k apiKey encryptedKey t).1 = .ok false ∧
    (ValidateApiKey (fun _ => .ok (str " true\n")) k apiKey encryptedKey t).1 = .ok true := by
  have ha : (trimSpace (str "TRUE") == str "true") = false := by decide
  have hb : (trimSpace (str "garbage") == str "true") = false := by decide
  have hc : (trimSpace (str " true\n") == str "true") = true := by decide
  refine ⟨?_, ?_, ?_, ?_, ?_, ?_⟩
  · simp [ValidateApiKey, h1]
  · simp [ValidateApiKeyToday, h2]
  · simp [ValidateApiKeyTodayWithTolerance, h3]
  · simp [ValidateApiKey, ha]
  · simp [ValidateApiKey, hb]
  · simp [ValidateApiKey, hc]

/-- Witness for C10 at a concrete executor whose runs succeed. -/
theorem validate_parses_stdout_witness :
    specBinary 0 (ValidateApiKey_cmd New (str "k") (str "x") 0) = .ok (str "false") ∧
    specBinary 0 (ValidateApiKeyToday_cmd New (str "k") (str "x")) = .ok (str "false") ∧
    specBinary 0 (ValidateApiKeyTodayWithTolerance_cmd New (str "k") (str "x") 0) =
      .ok (str "false") ∧
    ((ValidateApiKey (specBinary 0) New (str "k") (str "x") 0).1 =
        .ok (trimSpace (str "false") == str "true") ∧
      (ValidateApiKeyToday (specBinary 0) New (str "k") (str "x")).1 =
        .ok (trimSpace (str "false") == str "true") ∧
      (ValidateApiKeyTodayWithTolerance (specBinary 0) New (str "k") (str "x") 0).1 =
        .ok (trimSpace (str "false") == str "true") ∧
      (ValidateApiKey (fun _ => .ok (str "TRUE")) New (str "k") (str "x") 0).1 = .ok false ∧
      (ValidateApiKey (fun _ => .ok (str "garbage")) New (str "k") (str "x") 0).1 =
        .ok false ∧
      (ValidateApiKey (fun _ => .ok (str " true\n")) New (str "k") (str "x") 0).1 =
        .ok true) :=
  ⟨by decide, by decide, by decide,
    validate_parses_stdout (specBinary 0) New (str "k") (str "x") 0 0
      (str "false") (str "false") (str "false") (by decide) (by decide) (by decide)⟩

end keyrotation
